import Mathlib

/-!
Verification development for the docling-serve task-orchestration service.

The Python sources are shallowly embedded: Python dictionaries become
association lists over `String` keys, datetimes become integer seconds,
Python floats become rationals, exceptions become `Except`, and the
asynchronous operations become pure state-passing functions on an
explicit orchestrator state.  External collaborators (the docling
conversion engine, FastAPI, the KFP client, SHA-1) are modelled at the
interface the embedded code consumes, as noted in the doc comments of
the corresponding definitions.
-/

namespace DoclingServe

/-- Lookup in an association list standing in for a Python dictionary
(`d[k]` / `k in d`). -/
def lookupKey {α : Type} : List (String × α) → String → Option α
  | [], _ => none
  | kv :: rest, k => if kv.1 = k then some kv.2 else lookupKey rest k

/-- Removal of a key, standing in for Python `del d[k]`. -/
def eraseKey {α : Type} : List (String × α) → String → List (String × α)
  | [], _ => []
  | kv :: rest, k => if kv.1 = k then eraseKey rest k else kv :: eraseKey rest k

/-- Insertion/overwrite of a key, standing in for Python `d[k] = v`. -/
def insertKey {α : Type} (m : List (String × α)) (k : String) (v : α) :
    List (String × α) :=
  (k, v) :: eraseKey m k

/-- In-place update of the value stored under an existing key, standing in
for Python code that mutates the object held in `d[k]`.  Keys are never
added by this operation. -/
def updateKey {α : Type} : List (String × α) → String → (α → α) → List (String × α)
  | [], _, _ => []
  | kv :: rest, k, f =>
    if kv.1 = k then (kv.1, f kv.2) :: updateKey rest k f
    else kv :: updateKey rest k f

/-- docling `InputFormat` enumeration (external library). -/
inductive InputFormat
  | docx | pptx | html | image | pdf | asciidoc | md | csv | xlsx
  | xml_uspto | xml_jats | json_docling
deriving DecidableEq

/-- docling `OutputFormat` enumeration (external library). -/
inductive OutputFormat
  | md | json | html | text | doctags
deriving DecidableEq

/-- docling-core `ImageRefMode` enumeration (external library). -/
inductive ImageRefMode
  | placeholder | embedded | referenced
deriving DecidableEq

/-- docling `TableFormerMode` enumeration (external library). -/
inductive TableFormerMode
  | fast | accurate
deriving DecidableEq

/-- docling `PdfBackend` enumeration (external library; the installed
docling version also provides `DLPARSE_V4`, which the stale
`docling_conversion.py` does not handle). -/
inductive PdfBackend
  | pypdfium2 | dlparse_v1 | dlparse_v2 | dlparse_v4
deriving DecidableEq

/-- docling `OcrEngine` enumeration (external library). -/
inductive OcrEngine
  | easyocr | tesseract_cli | tesseract | ocrmac | rapidocr
deriving DecidableEq

/-- docling `PdfPipeline` enumeration (external library). -/
inductive PdfPipeline
  | standard | vlm
deriving DecidableEq

/-- TaskStatus from `datamodel/engines.py`. -/
inductive TaskStatus
  | success | pending | started | failure
deriving DecidableEq

/-- docling `ConversionStatus` (external library); `PARTIAL_SUCCESS` is
modelled by `partSuccess`. -/
inductive ConversionStatus
  | pending | started | failure | success | partSuccess | skipped
deriving DecidableEq

/-- Default of `DoclingServeSettings.options_cache_size` (settings.py). -/
def options_cache_size : Nat := 2

/-- Default of `DoclingServeSettings.max_sync_wait` (settings.py). -/
def max_sync_wait : Nat := 120

/-- Default of `DoclingServeSettings.single_use_results` (settings.py). -/
def single_use_results : Bool := true

/-- Default of `DoclingServeSettings.result_removal_delay` (settings.py),
in seconds. -/
def result_removal_delay : Int := 300

/-- Default of `DoclingServeSettings.max_document_timeout` (settings.py),
in seconds: `3_600 * 24 * 7`, written as the literal so that the constant
evaluates by kernel reduction. -/
def max_document_timeout : ℚ := 604800

/-- JSON rendering of a string (quotes as in `json.dumps`). -/
def jStr (s : String) : String := "\"" ++ s ++ "\""

/-- JSON rendering of a boolean. -/
def jBool (b : Bool) : String := if b then "true" else "false"

/-- JSON rendering of a number; Python float formatting is modelled by the
rational literal rendering, which is injective. -/
def jNum (q : ℚ) : String := toString q

/-- JSON rendering of a list. -/
def jList (items : List String) : String :=
  "[" ++ String.intercalate ", " items ++ "]"

/-- JSON rendering of an object whose fields are listed in sorted key
order, as produced by `json.dumps(data, sort_keys=True)`. -/
def jObj (fields : List (String × String)) : String :=
  "\x7b" ++ String.intercalate ", " (fields.map (fun kv => jStr kv.1 ++ ": " ++ kv.2)) ++ "\x7d"

namespace DoclingConversion

/-- ConvertDocumentsOptions as declared in `docling_conversion.py` (the
options model that `get_pdf_pipeline_opts` consumes), with the field
defaults of that file.  Floats are rationals. -/
structure ConvertDocumentsOptions where
  from_formats : List InputFormat :=
    [.docx, .pptx, .html, .image, .pdf, .asciidoc, .md, .csv, .xlsx,
     .xml_uspto, .xml_jats, .json_docling]
  to_formats : List OutputFormat := [.md]
  image_export_mode : ImageRefMode := .embedded
  do_ocr : Bool := true
  force_ocr : Bool := false
  ocr_engine : OcrEngine := .easyocr
  ocr_lang : Option (List String) := none
  pdf_backend : PdfBackend := .dlparse_v2
  table_mode : TableFormerMode := .fast
  abort_on_error : Bool := false
  return_as_file : Bool := false
  do_table_structure : Bool := true
  include_images : Bool := true
  images_scale : ℚ := 2
deriving DecidableEq

/-- Slice of the docling `OcrOptions` models that the embedded code reads
and serialises: the discriminating `kind`, the `force_full_page_ocr` flag
set from the request, and the language list.  The remaining
engine-specific fields are library constants determined by `kind` and are
folded into the serialisation of `kind`. -/
structure OcrOptions where
  kind : OcrEngine
  force_full_page_ocr : Bool
  lang : List String
deriving DecidableEq

/-- Default `lang` of the docling OCR option classes (external library
constants, one per engine). -/
def ocrDefaultLang : OcrEngine → List String
  | .easyocr => ["fr", "de", "es", "en"]
  | .tesseract => ["fra", "deu", "spa", "eng"]
  | .tesseract_cli => ["fra", "deu", "spa", "eng"]
  | .ocrmac => ["fr-FR", "de-DE", "es-ES", "en-US"]
  | .rapidocr => ["english", "chinese"]

/-- The `kind` discriminator string of each docling OCR option class
(external library constants). -/
def kindStr : OcrEngine → String
  | .easyocr => "easyocr"
  | .tesseract => "tesseract"
  | .tesseract_cli => "tesseract_cli"
  | .ocrmac => "ocrmac"
  | .rapidocr => "rapidocr"

/-- The fields of docling `PdfPipelineOptions` that `get_pdf_pipeline_opts`
determines from the request (plus `do_cell_matching`, which it sets to
`True`); the defaults are the docling library defaults.  Fields of the
library model not touched by the embedded code are constants and are kept
out of the record but included as constants in the serialisation. -/
structure PdfPipelineOptions where
  do_ocr : Bool
  ocr_options : OcrOptions
  do_table_structure : Bool
  do_cell_matching : Bool
  table_mode : TableFormerMode
  generate_page_images : Bool := false
  images_scale : ℚ := 1
deriving DecidableEq

/-- docling `PdfFormatOption` as assembled by `get_pdf_pipeline_opts`:
the pipeline class (a library default, rendered by `repr` during
serialisation), the backend class (rendered by `repr`), and the pipeline
options.  The `repr` strings are modelled without Python quoting
decoration. -/
structure PdfFormatOption where
  pipeline_cls_repr : String := "class docling.pipeline.standard_pdf_pipeline.StandardPdfPipeline"
  backend_repr : String
  pipeline_options : PdfPipelineOptions
deriving DecidableEq

/-- The `repr` string substituted for the backend class in
`_serialize_pdf_format_option` (Python quoting decoration elided). -/
def backendRepr : PdfBackend → String
  | .dlparse_v1 => "class docling.backend.docling_parse_backend.DoclingParseDocumentBackend"
  | .dlparse_v2 => "class docling.backend.docling_parse_v2_backend.DoclingParseV2DocumentBackend"
  | .pypdfium2 => "class docling.backend.pypdfium2_backend.PyPdfiumDocumentBackend"
  | .dlparse_v4 => "class docling.backend.docling_parse_v4_backend.DoclingParseV4DocumentBackend"

/-- String value of a `TableFormerMode` member (str enum). -/
def tableModeStr : TableFormerMode → String
  | .fast => "fast"
  | .accurate => "accurate"

/-- The `model_dump` of the OCR options as serialised inside
`_serialize_pdf_format_option`, with sorted keys. -/
def serializeOcrOptions (o : OcrOptions) : String :=
  jObj [("force_full_page_ocr", jBool o.force_full_page_ocr),
        ("kind", jStr (kindStr o.kind)),
        ("lang", jList (o.lang.map jStr))]

/-- The dedicated `model_dump` pass for `pipeline_options` performed by
`_serialize_pdf_format_option`, with sorted keys.  Note that the source
guards `if "accelerator_options" in data` on the TOP-level dictionary, so
the `device` repr substitution never fires; the accelerator options are
serialised as the library defaults. -/
def serializePipelineOptions (p : PdfPipelineOptions) : String :=
  jObj [("accelerator_options",
          jObj [("device", jStr "AcceleratorDevice.AUTO"), ("num_threads", "4")]),
        ("do_ocr", jBool p.do_ocr),
        ("do_table_structure", jBool p.do_table_structure),
        ("generate_page_images", jBool p.generate_page_images),
        ("images_scale", jNum p.images_scale),
        ("ocr_options", serializeOcrOptions p.ocr_options),
        ("table_structure_options",
          jObj [("do_cell_matching", jBool p.do_cell_matching),
                ("mode", jStr (tableModeStr p.table_mode))])]

/-- Embedding of `_serialize_pdf_format_option` from `docling_conversion.py`:
`model_dump` of the format option with `pipeline_cls` and `backend`
replaced by `repr` strings, serialised with sorted keys. -/
def _serialize_pdf_format_option (pdf_format_option : PdfFormatOption) : String :=
  jObj [("backend", jStr pdf_format_option.backend_repr),
        ("pipeline_cls", jStr pdf_format_option.pipeline_cls_repr),
        ("pipeline_options", serializePipelineOptions pdf_format_option.pipeline_options)]

/-- Errors raised by `get_pdf_pipeline_opts`: `HTTPException(400, ...)`
when the requested OCR engine is not importable, `RuntimeError` on
unexpected enum members. -/
inductive PipelineError
  | http (status_code : Nat) (detail : String)
  | runtime (msg : String)
deriving DecidableEq

/-- Embedding of `get_pdf_pipeline_opts` from `docling_conversion.py`.  `installed`
models which OCR engine modules import successfully.  The returned string
is the converter-cache fingerprint: the source applies
`hashlib.sha1(serialized).hexdigest()`, which is a function of the
serialised string; the digest is modelled by the serialised string
itself. -/
def get_pdf_pipeline_opts (installed : OcrEngine → Bool)
    (request : ConvertDocumentsOptions) :
    Except PipelineError (PdfFormatOption × String) :=
  let notInstalled : PipelineError :=
    .http 400 "The requested OCR engine is not available on this system."
  let ocrResult : Except PipelineError OcrOptions :=
    match request.ocr_engine with
    | .easyocr =>
      if installed .easyocr then
        .ok { kind := .easyocr, force_full_page_ocr := request.force_ocr,
              lang := ocrDefaultLang .easyocr }
      else .error notInstalled
    | .tesseract =>
      if installed .tesseract then
        .ok { kind := .tesseract, force_full_page_ocr := request.force_ocr,
              lang := ocrDefaultLang .tesseract }
      else .error notInstalled
    | .rapidocr =>
      if installed .rapidocr then
        .ok { kind := .rapidocr, force_full_page_ocr := request.force_ocr,
              lang := ocrDefaultLang .rapidocr }
      else .error notInstalled
    | _ => .error (.runtime "Unexpected OCR engine type")
  match ocrResult with
  | .error e => .error e
  | .ok ocr0 =>
    let ocr_options : OcrOptions :=
      match request.ocr_lang with
      | some l => { ocr0 with lang := l }
      | none => ocr0
    let pipeline_options : PdfPipelineOptions :=
      { do_ocr := request.do_ocr, ocr_options := ocr_options,
        do_table_structure := request.do_table_structure,
        do_cell_matching := true, table_mode := request.table_mode }
    let pipeline_options :=
      if request.image_export_mode ≠ ImageRefMode.placeholder then
        let p := { pipeline_options with generate_page_images := true }
        if request.images_scale ≠ 0 then { p with images_scale := request.images_scale }
        else p
      else pipeline_options
    let backendResult : Except PipelineError PdfBackend :=
      match request.pdf_backend with
      | .dlparse_v1 => .ok .dlparse_v1
      | .dlparse_v2 => .ok .dlparse_v2
      | .pypdfium2 => .ok .pypdfium2
      | _ => .error (.runtime "Unexpected PDF backend type")
    match backendResult with
    | .error e => .error e
    | .ok backend =>
      let pdf_format_option : PdfFormatOption :=
        { backend_repr := backendRepr backend, pipeline_options := pipeline_options }
      let serialized_data := _serialize_pdf_format_option pdf_format_option
      .ok (pdf_format_option, serialized_data)

/-- The cache fingerprint computed by `get_pdf_pipeline_opts` when all OCR
engines are importable (`none` when the computation raises). -/
def optionsFingerprint (request : ConvertDocumentsOptions) : Option String :=
  match get_pdf_pipeline_opts (fun _ => true) request with
  | .ok (_, h) => some h
  | .error _ => none

/-- The converter-cache step of `convert_documents` in
`docling_conversion.py`: converters live in the module-level dictionary
`converters`; when the fingerprint is absent a new converter is
constructed and inserted, and no entry is ever evicted.  Converter
instances are numbered by a construction counter. -/
def convert_documents_cache_step (converters : List (String × Nat))
    (fresh : Nat) (options_hash : String) : List (String × Nat) × Nat :=
  if (lookupKey converters options_hash).isSome then (converters, fresh)
  else (insertKey converters options_hash fresh, fresh + 1)

/-- Iterated `convert_documents` calls, keeping only the cache effect:
each call contributes its options fingerprint. -/
def convert_documents_cache_run :
    List String → List (String × Nat) × Nat → List (String × Nat) × Nat
  | [], acc => acc
  | h :: hs, acc => convert_documents_cache_run hs (convert_documents_cache_step acc.1 acc.2 h)

end DoclingConversion

namespace DatamodelConvert

/-- PictureDescriptionLocal from `datamodel/convert.py`. -/
structure PictureDescriptionLocal where
  repo_id : String
  prompt : String := "Describe this image in a few sentences."
  generation_config : List (String × String) :=
    [("max_new_tokens", "200"), ("do_sample", "false")]
deriving DecidableEq

/-- PictureDescriptionApi from `datamodel/convert.py`; the `AnyUrl` field
is a string. -/
structure PictureDescriptionApi where
  url : String
  headers : List (String × String) := []
  params : List (String × String) := []
  timeout : ℚ := 20
  prompt : String := "Describe this image in a few sentences."
deriving DecidableEq

/-- ConvertDocumentsOptions from `datamodel/convert.py` (the options model
used by the task registry, the worker and the response assembler), with
the defaults of that file.  `ocr_engine` is the dynamic OCR-factory enum,
modelled by its string value; `page_range` is a pair of integers with the
docling default upper bound `sys.maxsize`. -/
structure ConvertDocumentsOptions where
  from_formats : List InputFormat :=
    [.docx, .pptx, .html, .image, .pdf, .asciidoc, .md, .csv, .xlsx,
     .xml_uspto, .xml_jats, .json_docling]
  to_formats : List OutputFormat := [.md]
  image_export_mode : ImageRefMode := .embedded
  do_ocr : Bool := true
  force_ocr : Bool := false
  ocr_engine : String := "easyocr"
  ocr_lang : Option (List String) := none
  pdf_backend : PdfBackend := .dlparse_v4
  table_mode : TableFormerMode := .fast
  pipeline : PdfPipeline := .standard
  page_range : Int × Int := (1, 9223372036854775807)
  document_timeout : ℚ := max_document_timeout
  abort_on_error : Bool := false
  return_as_file : Bool := false
  do_table_structure : Bool := true
  include_images : Bool := true
  images_scale : ℚ := 2
  md_page_break_placeholder : String := ""
  do_code_enrichment : Bool := false
  do_formula_enrichment : Bool := false
  do_picture_classification : Bool := false
  do_picture_description : Bool := false
  picture_description_area_threshold : ℚ := ⟨1, 20, by decide, by decide⟩
  picture_description_local : Option PictureDescriptionLocal := none
  picture_description_api : Option PictureDescriptionApi := none
deriving DecidableEq

end DatamodelConvert

/-- DocumentResponse from `datamodel/responses.py`. -/
structure DocumentResponse where
  filename : String
  md_content : Option String := none
  json_content : Option String := none
  html_content : Option String := none
  text_content : Option String := none
  doctags_content : Option String := none
deriving DecidableEq

/-- ConvertDocumentResponse from `datamodel/responses.py`; `errors` and
`timings` carry the pydantic defaults when not passed. -/
structure ConvertDocumentResponse where
  document : DocumentResponse
  status : ConversionStatus
  errors : List String := []
  processing_time : ℚ
  timings : List (String × ℚ) := []
deriving DecidableEq

/-- The two response shapes produced by the response assembler: the inline
JSON body, or a FastAPI `FileResponse` (path, download filename, media
type). -/
inductive PreparedResponse
  | inline (resp : ConvertDocumentResponse)
  | file (path : String) (filename : String) (media_type : String)
deriving DecidableEq

/-- Whether a prepared response is a `FileResponse`
(`isinstance(response, FileResponse)`). -/
def PreparedResponse.isFile : PreparedResponse → Bool
  | .inline _ => false
  | .file _ _ _ => true

/-- Detail payload of a FastAPI `HTTPException`: a message string or the
per-document error list. -/
inductive HttpDetail
  | msg (s : String)
  | errs (l : List String)
deriving DecidableEq

/-- FastAPI `HTTPException` as raised by the response assembler. -/
structure HTTPException where
  status_code : Nat
  detail : HttpDetail
deriving DecidableEq

/-- The slice of a docling `ConversionResult` that
`response_preparation.py` reads.  The per-format renderings produced by
the external docling export calls (`export_to_html`,
`export_to_markdown`, `save_as_json`, ...) are modelled as precomputed
content fields of the result. -/
structure ConvResultData where
  stem : String
  filename : String
  status : ConversionStatus
  errors : List String := []
  timings : List (String × ℚ) := []
  json_render : String := ""
  html_render : String := ""
  md_render : String := ""
  txt_render : String := ""
  doctags_render : String := ""
deriving DecidableEq

/-- Embedding of `_export_document_as_content` from `response_preparation.py`: on
`SUCCESS` populate the requested renderings; on `SKIPPED` raise 400 with
the result errors; otherwise raise 500. -/
def _export_document_as_content (conv_res : ConvResultData)
    (export_json export_html export_md export_txt export_doctags : Bool) :
    Except HTTPException DocumentResponse :=
  if conv_res.status = ConversionStatus.success then
    .ok { filename := conv_res.filename
        , json_content := if export_json then some conv_res.json_render else none
        , html_content := if export_html then some conv_res.html_render else none
        , text_content := if export_txt then some conv_res.txt_render else none
        , md_content := if export_md then some conv_res.md_render else none
        , doctags_content := if export_doctags then some conv_res.doctags_render else none }
  else if conv_res.status = ConversionStatus.skipped then
    .error { status_code := 400, detail := .errs conv_res.errors }
  else
    .error { status_code := 500, detail := .errs conv_res.errors }

/-- The file names written into `output/` for one successful result, in
the write order of `_export_documents_as_files` (json, html, txt, md,
doctags). -/
def exportedFileNames (stem : String)
    (export_json export_html export_md export_txt export_doctags : Bool) :
    List String :=
  (if export_json then [stem ++ ".json"] else [])
    ++ (if export_html then [stem ++ ".html"] else [])
    ++ (if export_txt then [stem ++ ".txt"] else [])
    ++ (if export_md then [stem ++ ".md"] else [])
    ++ (if export_doctags then [stem ++ ".doctags"] else [])

/-- Embedding of `_export_documents_as_files` from `response_preparation.py`, modelled
by the list of file names it writes into the output directory (failed
documents are only counted and logged). -/
def _export_documents_as_files (conv_results : List ConvResultData)
    (export_json export_html export_md export_txt export_doctags : Bool) :
    List String :=
  conv_results.foldr
    (fun conv_res acc =>
      if conv_res.status = ConversionStatus.success then
        exportedFileNames conv_res.stem
          export_json export_html export_md export_txt export_doctags ++ acc
      else acc)
    []

/-- The ZIP branch of `process_results`: create `output/`, export the
documents, fail with 500 when nothing was exported, otherwise archive to
`converted_docs.zip` and return a `FileResponse` with media type
`application/zip`.  The boolean of the returned pair records that the
scratch `work_dir` was created on disk (only this branch creates it). -/
def _zip_file_response (conv_results : List ConvResultData) (work_dir : String)
    (export_json export_html export_md export_txt export_doctags : Bool) :
    Except HTTPException (PreparedResponse × Bool) :=
  let files := _export_documents_as_files conv_results
    export_json export_html export_md export_txt export_doctags
  if files.length = 0 then
    .error { status_code := 500, detail := .msg "No documents were exported." }
  else
    .ok (.file (work_dir ++ "/converted_docs.zip") "converted_docs.zip" "application/zip",
         true)

/-- Embedding of `process_results` from `response_preparation.py`.  `elapsed` is the
measured `time.monotonic()` duration of draining the results iterator.
The returned boolean records whether the scratch `work_dir` now exists on
disk (the inline branch never creates it). -/
def process_results (conversion_options : DatamodelConvert.ConvertDocumentsOptions)
    (conv_results : List ConvResultData) (work_dir : String) (elapsed : ℚ) :
    Except HTTPException (PreparedResponse × Bool) :=
  let export_json : Bool := decide (OutputFormat.json ∈ conversion_options.to_formats)
  let export_html : Bool := decide (OutputFormat.html ∈ conversion_options.to_formats)
  let export_md : Bool := decide (OutputFormat.md ∈ conversion_options.to_formats)
  let export_txt : Bool := decide (OutputFormat.text ∈ conversion_options.to_formats)
  let export_doctags : Bool := decide (OutputFormat.doctags ∈ conversion_options.to_formats)
  match conv_results with
  | [] => .error { status_code := 500, detail := .msg "No documents were generated by Docling." }
  | [conv_res] =>
    if conversion_options.return_as_file = false then
      match _export_document_as_content conv_res
          export_json export_html export_md export_txt export_doctags with
      | .error e => .error e
      | .ok document =>
        .ok (.inline { document := document, status := conv_res.status,
                       processing_time := elapsed, timings := conv_res.timings },
             false)
    else
      _zip_file_response [conv_res] work_dir
        export_json export_html export_md export_txt export_doctags
  | conv_res1 :: conv_res2 :: rest =>
    _zip_file_response (conv_res1 :: conv_res2 :: rest) work_dir
      export_json export_html export_md export_txt export_doctags

/-- TaskProcessingMeta from `datamodel/task_meta.py` (Python integers). -/
structure TaskProcessingMeta where
  num_docs : Int
  num_processed : Int := 0
  num_succeeded : Int := 0
  num_failed : Int := 0
deriving DecidableEq

/-- TaskSource from `datamodel/task.py`: `HttpSource`, `FileSource` or a
docling `DocumentStream` (stream bytes as a list of byte values). -/
inductive TaskSource
  | http (url : String) (headers : List (String × String))
  | file (base64_string : String) (filename : String)
  | stream (name : String) (data : List Nat)
deriving DecidableEq

/-- Task from `datamodel/task.py`.  Timestamps are UTC seconds as
integers. -/
structure Task where
  task_id : String
  task_status : TaskStatus := .pending
  sources : List TaskSource := []
  options : Option DatamodelConvert.ConvertDocumentsOptions
  result : Option PreparedResponse := none
  scratch_dir : Option String := none
  processing_meta : Option TaskProcessingMeta := none
  created_at : Int
  started_at : Option Int := none
  finished_at : Option Int := none
  last_update_at : Int
deriving DecidableEq

/-- Embedding of `Task.set_status` from `datamodel/task.py`, with the current clock
reading passed explicitly. -/
def Task.set_status (t : Task) (status : TaskStatus) (now : Int) : Task :=
  let t :=
    if status = TaskStatus.started ∧ t.started_at = none then
      { t with started_at := some now }
    else t
  let t :=
    if (status = TaskStatus.success ∨ status = TaskStatus.failure)
        ∧ t.finished_at = none then
      { t with finished_at := some now }
    else t
  { t with last_update_at := now, task_status := status }

/-- Embedding of `Task.is_completed` from `datamodel/task.py`. -/
def Task.is_completed (t : Task) : Bool :=
  t.task_status = TaskStatus.success ∨ t.task_status = TaskStatus.failure

/-- OrchestratorError hierarchy from `engines/base_orchestrator.py` and
`engines/async_orchestrator.py`, plus Python `RuntimeError`. -/
inductive OrchestratorError
  | taskNotFound
  | progressInvalid (msg : String)
  | runtime (msg : String)
deriving DecidableEq

/-- The in-memory state owned by `BaseAsyncOrchestrator` (plus the
`queue_list` of the local orchestrator): the task registry, the
subscriber registry (websockets as numeric handles), the visible queue
ordering, and the set of websockets on which `close()` has been called
(modelling the external websocket effect). -/
structure OrchState where
  tasks : List (String × Task) := []
  task_subscribers : List (String × List Nat) := []
  queue_list : List String := []
  closedSockets : List Nat := []
deriving DecidableEq

/-- Embedding of `BaseAsyncOrchestrator.init_task_tracking`: register the task and an
empty subscriber set. -/
def init_task_tracking (st : OrchState) (task : Task) : OrchState :=
  { st with tasks := insertKey st.tasks task.task_id task,
            task_subscribers := insertKey st.task_subscribers task.task_id [] }

/-- The local orchestrator `enqueue`: track the task, append it to the
visible queue ordering, and put its id on the worker queue. -/
def enqueue (st : OrchState) (task : Task) : OrchState :=
  let st1 := init_task_tracking st task
  { st1 with queue_list := st1.queue_list ++ [task.task_id] }

/-- Embedding of `BaseAsyncOrchestrator.get_raw_task`: raise `TaskNotFoundError` for an
unknown id. -/
def get_raw_task (st : OrchState) (task_id : String) : Except OrchestratorError Task :=
  match lookupKey st.tasks task_id with
  | none => .error .taskNotFound
  | some t => .ok t

/-- Embedding of `BaseAsyncOrchestrator.task_status` (the base implementation simply
returns the raw task). -/
def task_status (st : OrchState) (task_id : String) : Except OrchestratorError Task :=
  get_raw_task st task_id

/-- Deferred actions scheduled on FastAPI `BackgroundTasks` by
`task_result`. -/
inductive DeferredAction
  | rmtreeScratch (path : String)
  | removeTaskAfterDelay (task_id : String) (delay : Int)
deriving DecidableEq

/-- Embedding of `BaseAsyncOrchestrator.task_result`: `TaskNotFoundError` is caught and
turned into `None`; for completed tasks under `single_use_results` the
scratch removal and the delayed task deletion are scheduled as deferred
actions.  The typing records that the Python function returns normally in
every case (the `Except` error branch is never produced). -/
def task_result (st : OrchState) (task_id : String) :
    Except OrchestratorError (Option PreparedResponse × List DeferredAction) :=
  match get_raw_task st task_id with
  | .error _ => .ok (none, [])
  | .ok task =>
    let deferred : List DeferredAction :=
      if task.is_completed ∧ single_use_results = true then
        (match task.scratch_dir with
         | some p => [.rmtreeScratch p]
         | none => [])
          ++ [.removeTaskAfterDelay task_id result_removal_delay]
      else []
    .ok (task.result, deferred)

/-- Embedding of `BaseAsyncOrchestrator.delete_task`: close every websocket subscribed
to the task, then drop the subscriber entry and the registry entry. -/
def delete_task (st : OrchState) (task_id : String) : OrchState :=
  let closedNow : List Nat :=
    match lookupKey st.task_subscribers task_id with
    | some ws => ws
    | none => []
  { st with closedSockets := st.closedSockets ++ closedNow,
            task_subscribers := eraseKey st.task_subscribers task_id,
            tasks := eraseKey st.tasks task_id }

/-- The condition of `BaseAsyncOrchestrator.clear_results` on one task:
`finished_at` is set and lies strictly before the cutoff. -/
def finishedBefore (t : Task) (cutoff : Int) : Bool :=
  match t.finished_at with
  | some f => decide (f < cutoff)
  | none => false

/-- Helper predicate for stating the clock hypothesis of the
`clear_results` theorems: the task either has no `finished_at` yet or
finished strictly before `cutoff`. -/
def finishedBeforeOrUnfinished (t : Task) (cutoff : Int) : Bool :=
  match t.finished_at with
  | some f => decide (f < cutoff)
  | none => true

/-- Embedding of `BaseAsyncOrchestrator.clear_results`: compute the cutoff
`now - older_than`, list the tasks finished before it, and delete each. -/
def clear_results (st : OrchState) (now older_than : Int) : OrchState :=
  let cutoff := now - older_than
  let tasks_to_delete :=
    ((st.tasks.filter (fun kv => finishedBefore kv.2 cutoff)).map Prod.fst)
  tasks_to_delete.foldl delete_task st

/-- Embedding of `BaseAsyncOrchestrator.notify_task_subscribers`: `RuntimeError` when
the subscriber entry is missing; sends a status message to every
subscriber (message delivery is external) and closes the subscribers of a
completed task. -/
def notify_task_subscribers (st : OrchState) (task_id : String) :
    Except OrchestratorError OrchState :=
  match lookupKey st.task_subscribers task_id with
  | none => .error (.runtime "Task does not have a subscribers list.")
  | some ws =>
    match lookupKey st.tasks task_id with
    | none => .error .taskNotFound
    | some task =>
      .ok (if task.is_completed then { st with closedSockets := st.closedSockets ++ ws }
           else st)

/-- The subscription performed by the websocket endpoint
`task_status_ws`: after checking the registry, the websocket is added to
the subscriber set of the task. -/
def subscribe (st : OrchState) (task_id : String) (ws : Nat) : OrchState :=
  if (lookupKey st.tasks task_id).isSome then
    { st with task_subscribers := updateKey st.task_subscribers task_id (fun l => ws :: l) }
  else st

/-- The removal performed in the `finally` block of `task_status_ws`. -/
def unsubscribe (st : OrchState) (task_id : String) (ws : Nat) : OrchState :=
  { st with task_subscribers :=
      updateKey st.task_subscribers task_id (fun l => l.filter (fun w => w ≠ ws)) }

/-- The per-task body of `AsyncLocalWorker.loop` from
`engines/async_local/worker.py`, given the engine results for this task
(conversion by the external engine is the external black-box `convert` collaborator;
its output iterator is the `conv_results` list).  The try-block
transitions the task to STARTED, runs `run_conversion` in a thread, and
on success stores the response, records the scratch directory iff
`work_dir` now exists on disk, clears sources and options, and
transitions to SUCCESS; every exception (here: an `HTTPException` from
`process_results`, or a missing options object) yields FAILURE. -/
def AsyncLocalWorker.handle_task (task : Task) (conv_results : List ConvResultData)
    (work_dir : String) (elapsed : ℚ) (now : Int) : Task :=
  match task.options with
  | none => (task.set_status .started now).set_status .failure now
  | some opts =>
    let t := task.set_status .started now
    match process_results opts conv_results work_dir elapsed with
    | .error _ => t.set_status .failure now
    | .ok (response, work_dir_exists) =>
      let t := if work_dir_exists then { t with scratch_dir := some work_dir } else t
      let t := { t with result := some response, sources := [], options := none }
      t.set_status .success now

/-- Progress payloads from `datamodel/callback.py`, discriminated by
`kind`. -/
inductive Progress
  | set_num_docs (num_docs : Int)
  | update_processed (num_processed num_succeeded num_failed : Int)
      (docs_succeeded : List String) (docs_failed : List (String × String))
deriving DecidableEq

/-- ProgressCallbackRequest from `datamodel/callback.py`; `task_id`
carries the pipeline run name (see the identity-mapping hack in
`AsyncKfpOrchestrator.receive_task_progress`). -/
structure ProgressCallbackRequest where
  task_id : String
  progress : Progress
deriving DecidableEq

/-- The task-level effect of `AsyncKfpOrchestrator.receive_task_progress`:
`set_num_docs` initialises the meta and writes `task_status` directly;
`update_processed` requires the meta (else `ProgressInvalid`), adds the
payload deltas to the three counters and writes `task_status` directly.
Note that both branches assign `task.task_status` without going through
`Task.set_status`. -/
def apply_task_progress (task : Task) (progress : Progress) :
    Except OrchestratorError Task :=
  match progress with
  | .set_num_docs n =>
    .ok { task with processing_meta := some { num_docs := n },
                    task_status := .started }
  | .update_processed np ns nf _ds _df =>
    match task.processing_meta with
    | none =>
      .error (.progressInvalid
        "UpdateProcessed was called before setting the expected number of documents.")
    | some m =>
      .ok { task with
              processing_meta := some { m with
                num_processed := m.num_processed + np,
                num_succeeded := m.num_succeeded + ns,
                num_failed := m.num_failed + nf },
              task_status := .started }

/-- Embedding of `AsyncKfpOrchestrator.receive_task_progress`: translate the posted
run name to the run id via the engine list query (`resolve` models the
external `_get_run_id`, raising `RuntimeError` when no run matches),
fetch the raw task, apply the progress payload, and notify the
subscribers of the resolved task. -/
def receive_task_progress (resolve : String → Option String) (st : OrchState)
    (request : ProgressCallbackRequest) :
    Except OrchestratorError (OrchState × String) :=
  match resolve request.task_id with
  | none => .error (.runtime "Run with the posted run_name was not found.")
  | some task_id =>
    match lookupKey st.tasks task_id with
    | none => .error .taskNotFound
    | some task =>
      match apply_task_progress task request.progress with
      | .error e => .error e
      | .ok task2 =>
        let st2 := { st with tasks := updateKey st.tasks task_id (fun _ => task2) }
        match notify_task_subscribers st2 task_id with
        | .error e => .error e
        | .ok st3 => .ok (st3, task_id)

/-- The HTTP status produced by the `callback_task_progress` endpoint in
`app.py` for each outcome of `receive_task_progress`: 200 `ack` on
success, 404 for `TaskNotFoundError`, 400 for `ProgressInvalid`; other
exceptions propagate to the framework as 500. -/
def callback_task_progress {α : Type}
    (outcome : Except OrchestratorError α) : Nat :=
  match outcome with
  | .ok _ => 200
  | .error .taskNotFound => 404
  | .error (.progressInvalid _) => 400
  | .error (.runtime _) => 500

/-- The poll loop of `_wait_task_complete` in `app.py`: check completion,
sleep five seconds, and give up once the elapsed time exceeds
`max_sync_wait`.  `completed k` is the completion status observed by the
k-th poll; the elapsed time after the k-th sleep is modelled as exactly
`5 * (k + 1)` seconds.  The fuel argument is an upper bound on the number
of iterations, which the timeout check reaches first. -/
def _wait_task_complete_go (completed : Nat → Bool) : Nat → Nat → Bool
  | 0, _ => false
  | fuel + 1, k =>
    if completed k then true
    else if max_sync_wait < 5 * (k + 1) then false
    else _wait_task_complete_go completed fuel (k + 1)

/-- Embedding of `_wait_task_complete` from `app.py`. -/
def _wait_task_complete (completed : Nat → Bool) : Bool :=
  _wait_task_complete_go completed (max_sync_wait + 1) 0

/-- Outcome of the synchronous `process_url` handler in `app.py`.
`raisedException` models `raise HTTPException(...)` (the framework then
renders a response with that status); `returnedExceptionValue` models the
`return HTTPException(...)` statement of the timeout branch, whose value
is handed to the response-model serialisation instead of being raised, so
the framework never renders the carried status. -/
inductive SyncHandlerOutcome
  | result (r : PreparedResponse) (deferred : List DeferredAction)
  | raisedException (status_code : Nat) (detail : String)
  | returnedExceptionValue (status_code : Nat) (detail : String)
deriving DecidableEq

/-- The 504 detail message of `process_url`. -/
def syncTimeoutDetail : String :=
  "Conversion is taking too long. The maximum wait time is configured as DOCLING_SERVE_MAX_SYNC_WAIT."

/-- The synchronous `process_url` handler from `app.py`: enqueue the
task, poll until completion or timeout, then fetch the result.  An absent
result is raised as `HTTPException(404)`; on timeout the handler
RETURNS (instead of raising) an `HTTPException` value with status 504
(the `TODO: abort task!` branch) and performs no further orchestrator
call, so the state is left exactly as after the enqueue. -/
def process_url (st : OrchState) (task : Task) (completed : Nat → Bool) :
    SyncHandlerOutcome × OrchState :=
  let st1 := enqueue st task
  if _wait_task_complete completed then
    match task_result st1 task.task_id with
    | .ok (some r, deferred) => (.result r deferred, st1)
    | .ok (none, _) =>
      (.raisedException 404 "Task result not found. Please wait for a completion status.",
       st1)
    | .error _ =>
      (.raisedException 404 "Task result not found. Please wait for a completion status.",
       st1)
  else
    (.returnedExceptionValue 504 syncTimeoutDetail, st1)

/-- The orchestrator operations whose interleavings generate the
reachable states: task tracking of the two enqueue paths, deletion, bulk
clearing, websocket subscribe/unsubscribe, in-place task mutation by the
worker or the progress intake, and worker dequeueing. -/
inductive OrchStep
  | init (task : Task)
  | enq (task : Task)
  | del (task_id : String)
  | clear (now older_than : Int)
  | sub (task_id : String) (ws : Nat)
  | unsub (task_id : String) (ws : Nat)
  | setTask (task_id : String) (t : Task)
  | dequeue (task_id : String)
deriving DecidableEq

/-- Interpretation of one orchestrator operation on the state. -/
def applyStep (st : OrchState) : OrchStep → OrchState
  | .init task => init_task_tracking st task
  | .enq task => enqueue st task
  | .del task_id => delete_task st task_id
  | .clear now older_than => clear_results st now older_than
  | .sub task_id ws => subscribe st task_id ws
  | .unsub task_id ws => unsubscribe st task_id ws
  | .setTask task_id t => { st with tasks := updateKey st.tasks task_id (fun _ => t) }
  | .dequeue task_id => { st with queue_list := st.queue_list.filter (fun i => i ≠ task_id) }

/-- Reachability of an orchestrator state from the freshly constructed
orchestrator (both registries empty). -/
inductive Reachable : OrchState → Prop
  | init : Reachable {}
  | step {st : OrchState} (s : OrchStep) : Reachable st → Reachable (applyStep st s)

/-- Decidable equality for `Except`, used to evaluate the embedded
fallible operations on concrete inputs. -/
instance {ε α : Type} [DecidableEq ε] [DecidableEq α] : DecidableEq (Except ε α) :=
  fun x y =>
    match x, y with
    | .ok a, .ok b =>
      if h : a = b then .isTrue (by rw [h]) else .isFalse (fun hh => h (Except.ok.inj hh))
    | .error a, .error b =>
      if h : a = b then .isTrue (by rw [h]) else .isFalse (fun hh => h (Except.error.inj hh))
    | .ok _, .error _ => .isFalse (fun hh => Except.noConfusion hh)
    | .error _, .ok _ => .isFalse (fun hh => Except.noConfusion hh)

/-- Sample enqueued task (default options, clock at zero) used to
instantiate the general theorems. -/
def sampleTask : Task :=
  { task_id := "t1", options := some {}, created_at := 0, last_update_at := 0 }

/-- Sample successful conversion result. -/
def sampleSuccessResult : ConvResultData :=
  { stem := "doc", filename := "doc.pdf", status := .success }

/-- Sample skipped conversion result. -/
def sampleSkippedResult : ConvResultData :=
  { stem := "doc", filename := "doc.pdf", status := .skipped,
    errors := ["The document was skipped."] }

/-- The inline response assembled for `sampleSuccessResult` under default
options. -/
def sampleInlineResponse : PreparedResponse :=
  .inline { document := { filename := "doc.pdf", md_content := some "" },
            status := .success, processing_time := 0 }

/-- Sample orchestrator state with one tracked task and one subscribed
websocket. -/
def sampleSubscribedState : OrchState :=
  { tasks := [("t1", sampleTask)], task_subscribers := [("t1", [7])] }

/-- Fresh PENDING task as tracked by the KFP orchestrator after
`enqueue`. -/
def kfpFreshTask : Task :=
  { task_id := "r1", options := some {}, created_at := 0, last_update_at := 0 }

/-- KFP orchestrator state holding `kfpFreshTask` with an empty
subscriber set. -/
def kfpSampleState : OrchState :=
  { tasks := [("r1", kfpFreshTask)], task_subscribers := [("r1", [])] }

/-- The record produced for `kfpFreshTask` by a `set_num_docs` progress
callback: meta initialised, status written directly to STARTED. -/
def kfpStartedTask : Task :=
  { kfpFreshTask with processing_meta := some { num_docs := 3 },
                      task_status := .started }

/-- KFP task that has already received `set_num_docs 2`. -/
def kfpMetaTask : Task :=
  { kfpFreshTask with processing_meta := some { num_docs := 2 },
                      task_status := .started }

/-- KFP orchestrator state holding `kfpMetaTask`. -/
def kfpMetaState : OrchState :=
  { tasks := [("r1", kfpMetaTask)], task_subscribers := [("r1", [])] }

/-- Completed task that finished at clock 5 (C9 instantiation). -/
def c9DoneTask : Task :=
  { task_id := "a", task_status := .success, options := some {},
    created_at := 0, last_update_at := 5, started_at := some 1,
    finished_at := some 5 }

/-- Pending task without `finished_at` (C9 instantiation). -/
def c9PendingTask : Task :=
  { task_id := "b", options := some {}, created_at := 0, last_update_at := 0 }

/-- Registry with one completed and one pending task (C9
instantiation). -/
def c9State : OrchState :=
  { tasks := [("a", c9DoneTask), ("b", c9PendingTask)],
    task_subscribers := [("a", []), ("b", [])] }

/-- Alignment of the two registries: every task id tracked in the task
registry has a subscriber entry and vice versa. -/
def keysAligned (st : OrchState) : Prop :=
  ∀ task_id,
    (lookupKey st.tasks task_id).isSome = (lookupKey st.task_subscribers task_id).isSome

theorem lookupKey_insertKey {α : Type} (m : List (String × α)) (k : String) (v : α)
    (k2 : String) :
    lookupKey (insertKey m k v) k2 = if k2 = k then some v else lookupKey (eraseKey m k) k2 := by
  by_cases h : k2 = k
  · simp [insertKey, lookupKey, h]
  · simp only [insertKey, lookupKey]
    rw [if_neg (fun hh => h hh.symm)]
    simp [h]

theorem lookupKey_eraseKey {α : Type} (m : List (String × α)) (k k2 : String) :
    lookupKey (eraseKey m k) k2 = if k2 = k then none else lookupKey m k2 := by
  induction m with
  | nil => by_cases h : k2 = k <;> simp [eraseKey, lookupKey, h]
  | cons kv rest ih =>
    by_cases h1 : kv.1 = k <;> by_cases h2 : kv.1 = k2 <;>
      by_cases h3 : k2 = k <;>
      simp_all [eraseKey, lookupKey]

theorem lookupKey_insertKey_simp {α : Type} (m : List (String × α)) (k : String) (v : α)
    (k2 : String) :
    lookupKey (insertKey m k v) k2 = if k2 = k then some v else lookupKey m k2 := by
  rw [lookupKey_insertKey, lookupKey_eraseKey]
  by_cases h : k2 = k <;> simp [h]

theorem lookupKey_updateKey_isSome {α : Type} (m : List (String × α)) (k : String)
    (f : α → α) (k2 : String) :
    (lookupKey (updateKey m k f) k2).isSome = (lookupKey m k2).isSome := by
  induction m with
  | nil => rfl
  | cons kv rest ih =>
    by_cases h1 : kv.1 = k <;> by_cases h2 : kv.1 = k2 <;>
      simp_all [updateKey, lookupKey]

theorem lookupKey_updateKey_self {α : Type} (m : List (String × α)) (k : String)
    (f : α → α) :
    lookupKey (updateKey m k f) k = (lookupKey m k).map f := by
  induction m with
  | nil => rfl
  | cons kv rest ih =>
    by_cases h1 : kv.1 = k <;> simp_all [updateKey, lookupKey]

theorem lookupKey_mem {α : Type} {m : List (String × α)} {k : String} {v : α}
    (h : lookupKey m k = some v) : (k, v) ∈ m := by
  induction m with
  | nil => simp [lookupKey] at h
  | cons kv rest ih =>
    by_cases h1 : kv.1 = k
    · simp [lookupKey, h1] at h
      have hkv : (k, v) = kv := by rw [← h1, ← h]
      rw [hkv]
      exact List.mem_cons_self _ _
    · simp [lookupKey, h1] at h
      exact List.mem_cons_of_mem _ (ih h)

theorem lookupKey_eq_none_of_not_mem {α : Type} {m : List (String × α)} {k : String}
    (h : k ∉ m.map Prod.fst) : lookupKey m k = none := by
  induction m with
  | nil => rfl
  | cons kv rest ih =>
    simp only [List.map_cons, List.mem_cons] at h
    push_neg at h
    have hne : ¬ kv.1 = k := fun hh => h.1 hh.symm
    simp [lookupKey, hne, ih h.2]

theorem eraseKey_eq_filter {α : Type} (m : List (String × α)) (k : String) :
    eraseKey m k = m.filter (fun kv => !(decide (kv.1 = k))) := by
  induction m with
  | nil => rfl
  | cons kv rest ih =>
    by_cases h : kv.1 = k <;> simp [eraseKey, h, ih, List.filter_cons]

theorem foldl_eraseKey_eq_filter {α : Type} (ids : List String) (m : List (String × α)) :
    ids.foldl (fun acc i => eraseKey acc i) m
      = m.filter (fun kv => !(decide (kv.1 ∈ ids))) := by
  induction ids generalizing m with
  | nil => simp
  | cons a ids ih =>
    simp only [List.foldl_cons]
    rw [ih, eraseKey_eq_filter, List.filter_filter]
    apply List.filter_congr
    intro kv _
    by_cases h1 : kv.1 = a <;> by_cases h2 : kv.1 ∈ ids <;>
      simp [h1, h2, List.mem_cons]

theorem lookupKey_filter {α : Type} (m : List (String × α)) (q : String × α → Bool)
    (k : String) (hnd : (m.map Prod.fst).Nodup) :
    lookupKey (m.filter q) k
      = match lookupKey m k with
        | some v => if q (k, v) then some v else none
        | none => none := by
  induction m with
  | nil => rfl
  | cons kv rest ih =>
    simp only [List.map_cons, List.nodup_cons] at hnd
    by_cases h : kv.1 = k
    · cases hq : q kv with
      | true =>
        have hqk : q (k, kv.2) = true := by rw [← h]; exact hq
        simp [List.filter_cons, hq, lookupKey, h, hqk]
      | false =>
        have hqk : q (k, kv.2) = false := by rw [← h]; exact hq
        have hrest : lookupKey rest k = none := by
          apply lookupKey_eq_none_of_not_mem
          rw [← h]
          exact hnd.1
        have : lookupKey (rest.filter q) k = none := by
          rw [ih hnd.2, hrest]
        simp [List.filter_cons, hq, lookupKey, h, hqk, this]
    · cases hq : q kv with
      | true => simp [List.filter_cons, hq, lookupKey, h, ih hnd.2]
      | false => simp [List.filter_cons, hq, lookupKey, h, ih hnd.2]

theorem lookupKey_eq_of_mem_nodup {α : Type} {m : List (String × α)}
    (hnd : (m.map Prod.fst).Nodup) {kv : String × α} (hmem : kv ∈ m) :
    lookupKey m kv.1 = some kv.2 := by
  induction m with
  | nil => simp at hmem
  | cons hd rest ih =>
    simp only [List.map_cons, List.nodup_cons] at hnd
    rcases List.mem_cons.mp hmem with hh | hh
    · subst hh
      simp [lookupKey]
    · have hne : ¬ hd.1 = kv.1 := by
        intro hq
        apply hnd.1
        rw [hq]
        exact List.mem_map.mpr ⟨kv, hh, rfl⟩
      simp [lookupKey, hne, ih hnd.2 hh]

theorem mem_filter_keys_iff {α : Type} (m : List (String × α)) (p : String × α → Bool)
    (k : String) (v : α) (hnd : (m.map Prod.fst).Nodup)
    (hlook : lookupKey m k = some v) :
    (k ∈ (m.filter p).map Prod.fst) ↔ p (k, v) = true := by
  have hmem : (k, v) ∈ m := lookupKey_mem hlook
  constructor
  · intro hin
    simp only [List.mem_map] at hin
    obtain ⟨kv2, hkv2mem, hkv2key⟩ := hin
    have hkv2 : kv2 ∈ m := List.mem_of_mem_filter hkv2mem
    have heq : kv2.2 = v := by
      have h1 := lookupKey_eq_of_mem_nodup hnd hkv2
      rw [hkv2key] at h1
      rw [hlook] at h1
      exact (Option.some.inj h1).symm
    have hkveq : kv2 = (k, v) := by
      rw [← hkv2key, ← heq]
    rw [hkveq] at hkv2mem
    exact (List.mem_filter.mp hkv2mem).2
  · intro hp
    refine List.mem_map.mpr ⟨(k, v), List.mem_filter.mpr ⟨hmem, hp⟩, rfl⟩

theorem delete_task_tasks (st : OrchState) (i : String) :
    (delete_task st i).tasks = eraseKey st.tasks i := rfl

theorem delete_task_subs (st : OrchState) (i : String) :
    (delete_task st i).task_subscribers = eraseKey st.task_subscribers i := rfl

theorem foldl_delete_task_tasks (ids : List String) (st : OrchState) :
    (ids.foldl delete_task st).tasks = ids.foldl (fun m i => eraseKey m i) st.tasks := by
  induction ids generalizing st with
  | nil => rfl
  | cons a ids ih =>
    simp only [List.foldl_cons]
    exact ih (delete_task st a)

theorem clear_results_tasks (st : OrchState) (now older_than : Int) :
    (clear_results st now older_than).tasks
      = st.tasks.filter (fun kv =>
          !(decide (kv.1 ∈ (st.tasks.filter
              (fun kv2 => finishedBefore kv2.2 (now - older_than))).map Prod.fst))) := by
  show (((st.tasks.filter (fun kv => finishedBefore kv.2 (now - older_than))).map
          Prod.fst).foldl delete_task st).tasks = _
  rw [foldl_delete_task_tasks, foldl_eraseKey_eq_filter]

theorem clear_results_lookup (st : OrchState) (now older_than : Int)
    (hnd : (st.tasks.map Prod.fst).Nodup) (tid : String) (t : Task)
    (hlook : lookupKey st.tasks tid = some t) :
    lookupKey (clear_results st now older_than).tasks tid
      = if finishedBefore t (now - older_than) then none else some t := by
  rw [clear_results_tasks, lookupKey_filter _ _ _ hnd, hlook]
  have hmem := mem_filter_keys_iff st.tasks
    (fun kv2 => finishedBefore kv2.2 (now - older_than)) tid t hnd hlook
  by_cases hfb : finishedBefore t (now - older_than) = true
  · have hin : tid ∈ (st.tasks.filter
        (fun kv2 => finishedBefore kv2.2 (now - older_than))).map Prod.fst :=
      hmem.mpr hfb
    simp [hin, hfb]
  · have hout : tid ∉ (st.tasks.filter
        (fun kv2 => finishedBefore kv2.2 (now - older_than))).map Prod.fst :=
      fun hin => hfb (hmem.mp hin)
    simp [hout, hfb]

theorem clear_results_twice (st : OrchState) (now now2 : Int)
    (hpast : ∀ kv ∈ st.tasks, finishedBeforeOrUnfinished kv.2 now = true) :
    clear_results (clear_results st now 0) now2 0 = clear_results st now 0 := by
  have hall : ∀ kv ∈ (clear_results st now 0).tasks,
      ¬ finishedBefore kv.2 (now2 - 0) = true := by
    intro kv hkv
    rw [clear_results_tasks] at hkv
    have hkvm := List.mem_filter.mp hkv
    cases hf : kv.2.finished_at with
    | none => simp [finishedBefore, hf]
    | some f =>
      exfalso
      have hflt : f < now := by
        have := hpast kv hkvm.1
        simpa [finishedBeforeOrUnfinished, hf] using this
      have hfb1 : finishedBefore kv.2 (now - 0) = true := by
        simp [finishedBefore, hf]
        omega
      have hin : kv.1 ∈ (st.tasks.filter
          (fun kv2 => finishedBefore kv2.2 (now - 0))).map Prod.fst :=
        List.mem_map.mpr ⟨kv, List.mem_filter.mpr ⟨hkvm.1, hfb1⟩, rfl⟩
      have hbad := hkvm.2
      rw [decide_eq_true hin] at hbad
      simp at hbad
  have hempty : ((clear_results st now 0).tasks.filter
      (fun kv => finishedBefore kv.2 (now2 - 0))).map Prod.fst = [] := by
    rw [List.filter_eq_nil_iff.mpr hall]
    rfl
  show (((clear_results st now 0).tasks.filter
      (fun kv => finishedBefore kv.2 (now2 - 0))).map Prod.fst).foldl
        delete_task (clear_results st now 0) = clear_results st now 0
  rw [hempty]
  rfl

theorem keysAligned_init {st : OrchState} (h : keysAligned st) (task : Task) :
    keysAligned (init_task_tracking st task) := by
  intro tid
  show (lookupKey (insertKey st.tasks task.task_id task) tid).isSome
     = (lookupKey (insertKey st.task_subscribers task.task_id []) tid).isSome
  rw [lookupKey_insertKey_simp, lookupKey_insertKey_simp]
  by_cases hti : tid = task.task_id <;> simp [hti, h tid]

theorem keysAligned_enqueue {st : OrchState} (h : keysAligned st) (task : Task) :
    keysAligned (enqueue st task) := by
  intro tid
  exact keysAligned_init h task tid

theorem keysAligned_delete {st : OrchState} (h : keysAligned st) (i : String) :
    keysAligned (delete_task st i) := by
  intro tid
  rw [delete_task_tasks, delete_task_subs, lookupKey_eraseKey, lookupKey_eraseKey]
  by_cases hti : tid = i <;> simp [hti, h tid]

theorem keysAligned_foldl_delete {st : OrchState} (ids : List String)
    (h : keysAligned st) : keysAligned (ids.foldl delete_task st) := by
  induction ids generalizing st with
  | nil => exact h
  | cons a ids ih =>
    simp only [List.foldl_cons]
    exact ih (keysAligned_delete h a)

theorem keysAligned_clear {st : OrchState} (h : keysAligned st) (now older_than : Int) :
    keysAligned (clear_results st now older_than) := by
  exact keysAligned_foldl_delete _ h

theorem keysAligned_subscribe {st : OrchState} (h : keysAligned st) (i : String)
    (ws : Nat) : keysAligned (subscribe st i ws) := by
  intro tid
  unfold subscribe
  by_cases hc : (lookupKey st.tasks i).isSome = true
  · simp only [hc, if_true]
    show (lookupKey st.tasks tid).isSome
       = (lookupKey (updateKey st.task_subscribers i (fun l => ws :: l)) tid).isSome
    rw [lookupKey_updateKey_isSome]
    exact h tid
  · simp only [hc, if_false, Bool.false_eq_true]
    exact h tid

theorem keysAligned_unsubscribe {st : OrchState} (h : keysAligned st) (i : String)
    (ws : Nat) : keysAligned (unsubscribe st i ws) := by
  intro tid
  show (lookupKey st.tasks tid).isSome
     = (lookupKey (updateKey st.task_subscribers i
          (fun l => l.filter (fun w => w ≠ ws))) tid).isSome
  rw [lookupKey_updateKey_isSome]
  exact h tid

theorem keysAligned_setTask {st : OrchState} (h : keysAligned st) (i : String)
    (t : Task) : keysAligned { st with tasks := updateKey st.tasks i (fun _ => t) } := by
  intro tid
  show (lookupKey (updateKey st.tasks i (fun _ => t)) tid).isSome
     = (lookupKey st.task_subscribers tid).isSome
  rw [lookupKey_updateKey_isSome]
  exact h tid

theorem wait_go_false (completed : Nat → Bool)
    (hnc : ∀ j, 5 * j ≤ max_sync_wait → completed j = false) :
    ∀ (fuel k : Nat), 5 * k ≤ max_sync_wait →
      _wait_task_complete_go completed fuel k = false := by
  intro fuel
  induction fuel with
  | zero => intro k _; rfl
  | succ fuel ih =>
    intro k hk
    simp only [_wait_task_complete_go]
    rw [hnc k hk]
    by_cases hlt : max_sync_wait < 5 * (k + 1)
    · simp [hlt]
    · have hle : 5 * (k + 1) ≤ max_sync_wait := Nat.le_of_not_lt hlt
      simp only [hlt, if_false, Bool.false_eq_true]
      exact ih (k + 1) hle

theorem wait_task_complete_false (completed : Nat → Bool)
    (hnc : ∀ j, 5 * j ≤ max_sync_wait → completed j = false) :
    _wait_task_complete completed = false :=
  wait_go_false completed hnc (max_sync_wait + 1) 0 (by simp)

theorem zip_response_ok {conv_results : List ConvResultData} {wd : String}
    {ej eh em et ed : Bool} {resp : PreparedResponse} {created : Bool}
    (hok : _zip_file_response conv_results wd ej eh em et ed = .ok (resp, created)) :
    resp = .file (wd ++ "/converted_docs.zip") "converted_docs.zip" "application/zip"
      ∧ created = true := by
  unfold _zip_file_response at hok
  by_cases hlen : (_export_documents_as_files conv_results ej eh em et ed).length = 0
  · simp [hlen] at hok
  · simp only [hlen, if_false] at hok
    have := Except.ok.inj hok
    exact ⟨(congrArg Prod.fst this).symm, (congrArg Prod.snd this).symm⟩

theorem zip_response_of_files_ne_nil {conv_results : List ConvResultData} {wd : String}
    {ej eh em et ed : Bool}
    (hne : _export_documents_as_files conv_results ej eh em et ed ≠ []) :
    _zip_file_response conv_results wd ej eh em et ed
      = .ok (.file (wd ++ "/converted_docs.zip") "converted_docs.zip" "application/zip",
             true) := by
  unfold _zip_file_response
  have hlen : ¬ (_export_documents_as_files conv_results ej eh em et ed).length = 0 := by
    simpa [List.length_eq_zero] using hne
  simp [hlen]

theorem exportedFileNames_ne_nil (stem : String) (fmts : List OutputFormat)
    (hfmt : fmts ≠ []) :
    exportedFileNames stem
      (decide (OutputFormat.json ∈ fmts)) (decide (OutputFormat.html ∈ fmts))
      (decide (OutputFormat.md ∈ fmts)) (decide (OutputFormat.text ∈ fmts))
      (decide (OutputFormat.doctags ∈ fmts)) ≠ [] := by
  cases fmts with
  | nil => exact absurd rfl hfmt
  | cons f rest =>
    cases f <;> simp [exportedFileNames, List.append_eq_nil]

theorem export_files_ne_nil (conv_results : List ConvResultData)
    (fmts : List OutputFormat)
    (hne : conv_results ≠ [])
    (hall : ∀ r ∈ conv_results, r.status = ConversionStatus.success)
    (hfmt : fmts ≠ []) :
    _export_documents_as_files conv_results
      (decide (OutputFormat.json ∈ fmts)) (decide (OutputFormat.html ∈ fmts))
      (decide (OutputFormat.md ∈ fmts)) (decide (OutputFormat.text ∈ fmts))
      (decide (OutputFormat.doctags ∈ fmts)) ≠ [] := by
  cases conv_results with
  | nil => exact absurd rfl hne
  | cons r rest =>
    have hr : r.status = ConversionStatus.success := hall r (List.mem_cons_self _ _)
    have hx := exportedFileNames_ne_nil r.stem fmts hfmt
    simp only [_export_documents_as_files, List.foldr_cons, hr, if_true]
    intro hcontra
    rw [List.append_eq_nil] at hcontra
    exact hx hcontra.1

theorem process_results_isFile (opts : DatamodelConvert.ConvertDocumentsOptions)
    (conv_results : List ConvResultData) (work_dir : String) (elapsed : ℚ)
    (resp : PreparedResponse) (created : Bool)
    (hok : process_results opts conv_results work_dir elapsed = .ok (resp, created)) :
    created = resp.isFile := by
  simp only [process_results] at hok
  split at hok
  · exact absurd hok (by simp)
  · split at hok
    · split at hok
      · exact absurd hok (by simp)
      · have hp := Except.ok.inj hok
        rw [Prod.mk.injEq] at hp
        rw [← hp.1, ← hp.2]
        rfl
    · obtain ⟨hresp, hcreated⟩ := zip_response_ok hok
      rw [hresp, hcreated]
      rfl
  · obtain ⟨hresp, hcreated⟩ := zip_response_ok hok
    rw [hresp, hcreated]
    rfl

theorem set_status_result (t : Task) (s : TaskStatus) (now : Int) :
    (t.set_status s now).result = t.result := by
  simp only [Task.set_status]
  split <;> split <;> rfl

theorem set_status_sources (t : Task) (s : TaskStatus) (now : Int) :
    (t.set_status s now).sources = t.sources := by
  simp only [Task.set_status]
  split <;> split <;> rfl

theorem set_status_options (t : Task) (s : TaskStatus) (now : Int) :
    (t.set_status s now).options = t.options := by
  simp only [Task.set_status]
  split <;> split <;> rfl

theorem set_status_scratch_dir (t : Task) (s : TaskStatus) (now : Int) :
    (t.set_status s now).scratch_dir = t.scratch_dir := by
  simp only [Task.set_status]
  split <;> split <;> rfl

theorem set_status_task_status (t : Task) (s : TaskStatus) (now : Int) :
    (t.set_status s now).task_status = s := rfl

theorem process_results_single (opts : DatamodelConvert.ConvertDocumentsOptions)
    (r : ConvResultData) (work_dir : String) (elapsed : ℚ) :
    process_results opts [r] work_dir elapsed
      = (if opts.return_as_file = false then
          match _export_document_as_content r
              (decide (OutputFormat.json ∈ opts.to_formats))
              (decide (OutputFormat.html ∈ opts.to_formats))
              (decide (OutputFormat.md ∈ opts.to_formats))
              (decide (OutputFormat.text ∈ opts.to_formats))
              (decide (OutputFormat.doctags ∈ opts.to_formats)) with
          | .error e => .error e
          | .ok document =>
            .ok (.inline { document := document, status := r.status,
                           processing_time := elapsed, timings := r.timings },
                 false)
        else
          _zip_file_response [r] work_dir
            (decide (OutputFormat.json ∈ opts.to_formats))
            (decide (OutputFormat.html ∈ opts.to_formats))
            (decide (OutputFormat.md ∈ opts.to_formats))
            (decide (OutputFormat.text ∈ opts.to_formats))
            (decide (OutputFormat.doctags ∈ opts.to_formats))) := rfl

theorem process_results_multi (opts : DatamodelConvert.ConvertDocumentsOptions)
    (r1 r2 : ConvResultData) (rest : List ConvResultData)
    (work_dir : String) (elapsed : ℚ) :
    process_results opts (r1 :: r2 :: rest) work_dir elapsed
      = _zip_file_response (r1 :: r2 :: rest) work_dir
          (decide (OutputFormat.json ∈ opts.to_formats))
          (decide (OutputFormat.html ∈ opts.to_formats))
          (decide (OutputFormat.md ∈ opts.to_formats))
          (decide (OutputFormat.text ∈ opts.to_formats))
          (decide (OutputFormat.doctags ∈ opts.to_formats)) := rfl

set_option maxRecDepth 200000

/-- Claim C1.  The converter cache of `convert_documents` in the shipped
`docling_conversion.py` is a plain module-level dictionary: after three
calls whose options carry three distinct fingerprints (the defaults,
`do_ocr` off, and `table_mode` accurate), three converter instances are
retained, exceeding the configured `options_cache_size` default of 2; no
entry is ever evicted.  This evaluates the embedded cache step at the
failing input of the C1 claim. -/
theorem converters_cache_retains_beyond_capacity :
    (DoclingConversion.convert_documents_cache_run
      [ (DoclingConversion.optionsFingerprint {}).getD ""
      , (DoclingConversion.optionsFingerprint { do_ocr := false }).getD ""
      , (DoclingConversion.optionsFingerprint { table_mode := .accurate }).getD "" ]
      ([], 0)).1.length = 3
  ∧ options_cache_size < 3 := by
  constructor
  · decide
  · decide

/-- Claim C2, counterexample.  Two options structures that differ in the
recognised field `to_formats` produce byte-identical fingerprints,
because the requested output formats never reach the serialised
`PdfFormatOption`. -/
theorem fingerprint_unchanged_by_to_formats :
    DoclingConversion.optionsFingerprint { to_formats := [OutputFormat.json] }
      = DoclingConversion.optionsFingerprint {}
  ∧ ({ to_formats := [OutputFormat.json] } : DoclingConversion.ConvertDocumentsOptions)
      ≠ {} :=
  ⟨rfl, by decide⟩

/-- Claim C2 (amended).  Equal options yield byte-identical fingerprints;
options differing only in fields that never reach the pdf pipeline
options (`from_formats`, `to_formats`, `return_as_file`,
`abort_on_error`, `include_images`) yield identical fingerprints; each of
the single-field changes of a pipeline-relevant field exercised here in
the style of the cache-key test (`do_ocr` off, `force_ocr` on,
`ocr_engine` tesseract, `ocr_lang` `["en"]`, `pdf_backend` pypdfium2,
`table_mode` accurate, `image_export_mode` placeholder, `images_scale` 3,
`do_table_structure` off) yields a distinct fingerprint; but not every
change of a pipeline-relevant field is distinguishing:
`image_export_mode` embedded→referenced and `ocr_lang` set to the
easyocr default language list leave the fingerprint unchanged, and the
enum members not handled by `get_pdf_pipeline_opts` (`ocr_engine`
tesseract_cli or ocrmac, `pdf_backend` dlparse_v4) raise `RuntimeError`,
producing no fingerprint at all. -/
theorem fingerprint_function_of_pipeline_fields :
    (∀ a b : DoclingConversion.ConvertDocumentsOptions, a = b →
        DoclingConversion.optionsFingerprint a = DoclingConversion.optionsFingerprint b)
  ∧ (∀ (a : DoclingConversion.ConvertDocumentsOptions) (ff : List InputFormat)
        (tf : List OutputFormat) (b1 b2 b3 : Bool),
        DoclingConversion.optionsFingerprint
          { a with from_formats := ff, to_formats := tf, return_as_file := b1,
                   abort_on_error := b2, include_images := b3 }
          = DoclingConversion.optionsFingerprint a)
  ∧ DoclingConversion.optionsFingerprint { do_ocr := false }
      ≠ DoclingConversion.optionsFingerprint {}
  ∧ DoclingConversion.optionsFingerprint { force_ocr := true }
      ≠ DoclingConversion.optionsFingerprint {}
  ∧ DoclingConversion.optionsFingerprint { ocr_engine := .tesseract }
      ≠ DoclingConversion.optionsFingerprint {}
  ∧ DoclingConversion.optionsFingerprint { ocr_lang := some ["en"] }
      ≠ DoclingConversion.optionsFingerprint {}
  ∧ DoclingConversion.optionsFingerprint { pdf_backend := .pypdfium2 }
      ≠ DoclingConversion.optionsFingerprint {}
  ∧ DoclingConversion.optionsFingerprint { table_mode := .accurate }
      ≠ DoclingConversion.optionsFingerprint {}
  ∧ DoclingConversion.optionsFingerprint { image_export_mode := .placeholder }
      ≠ DoclingConversion.optionsFingerprint {}
  ∧ DoclingConversion.optionsFingerprint { images_scale := 3 }
      ≠ DoclingConversion.optionsFingerprint {}
  ∧ DoclingConversion.optionsFingerprint { do_table_structure := false }
      ≠ DoclingConversion.optionsFingerprint {}
  ∧ DoclingConversion.optionsFingerprint { image_export_mode := .referenced }
      = DoclingConversion.optionsFingerprint {}
  ∧ DoclingConversion.optionsFingerprint { ocr_lang := some ["fr", "de", "es", "en"] }
      = DoclingConversion.optionsFingerprint {}
  ∧ DoclingConversion.optionsFingerprint { ocr_engine := .tesseract_cli } = none
  ∧ DoclingConversion.optionsFingerprint { ocr_engine := .ocrmac } = none
  ∧ DoclingConversion.optionsFingerprint { pdf_backend := .dlparse_v4 } = none := by
  refine ⟨?_, ?_, ?_, ?_, ?_, ?_, ?_, ?_, ?_, ?_, ?_, ?_, ?_, ?_, ?_, ?_⟩
  · intro a b h
    rw [h]
  · intro a ff tf b1 b2 b3
    rfl
  all_goals decide

/-- Witness for the amended C2 theorem at the default options. -/
theorem fingerprint_function_of_pipeline_fields_witness :
    DoclingConversion.optionsFingerprint {} = DoclingConversion.optionsFingerprint {} :=
  fingerprint_function_of_pipeline_fields.1 {} {} rfl

/-- Claim C3, failing-input evaluation.  For a synchronous conversion
whose task never completes within the poll window of `max_sync_wait`
seconds, the handler RETURNS the `HTTPException` value carrying status
504 instead of raising it — so the framework serialises the returned
object against the response model and the client receives a 500, not the
claimed 504 — while the orchestrator state is left exactly as after the
enqueue: the task is still in the registry, neither cancelled nor
deleted. -/
theorem sync_timeout_returns_504_exception_value_task_kept (st : OrchState)
    (task : Task) (completed : Nat → Bool)
    (hnc : ∀ j, 5 * j ≤ max_sync_wait → completed j = false) :
    process_url st task completed
      = (.returnedExceptionValue 504 syncTimeoutDetail, enqueue st task)
  ∧ lookupKey (enqueue st task).tasks task.task_id = some task := by
  constructor
  · unfold process_url
    rw [wait_task_complete_false completed hnc]
    simp
  · show lookupKey (insertKey st.tasks task.task_id task) task.task_id = some task
    rw [lookupKey_insertKey_simp]
    simp

/-- Witness for the C3 theorem: a task that never completes. -/
theorem sync_timeout_returns_504_exception_value_task_kept_witness :
    process_url {} sampleTask (fun _ => false)
      = (.returnedExceptionValue 504 syncTimeoutDetail, enqueue {} sampleTask)
  ∧ lookupKey (enqueue {} sampleTask).tasks sampleTask.task_id = some sampleTask :=
  sync_timeout_returns_504_exception_value_task_kept {} sampleTask (fun _ => false)
    (fun _ _ => rfl)

/-- Claim C4, counterexample.  After `delete_task`, `task_result` on the
deleted id does not raise `TaskNotFoundError`: the code catches the error
of `get_raw_task` and returns `None` (the HTTP layer then renders the
absent result as a 404). -/
theorem task_result_after_delete_returns_none :
    task_result (delete_task sampleSubscribedState "t1") "t1" = .ok (none, [])
  ∧ (Except.ok (none, []) :
        Except OrchestratorError (Option PreparedResponse × List DeferredAction))
      ≠ .error .taskNotFound := by
  constructor
  · decide
  · decide

/-- Claim C4 (amended).  After `delete_task(id)` every websocket that was
subscribed to the task has been closed, `task_status(id)` raises
`TaskNotFoundError`, and `task_result(id)` returns the absent result
`None` (which the result endpoint translates to 404) rather than raising
`TaskNotFoundError`. -/
theorem delete_task_closes_subscribers_and_hides_task (st : OrchState)
    (task_id : String) :
    (∀ ws ∈ (lookupKey st.task_subscribers task_id).getD [],
        ws ∈ (delete_task st task_id).closedSockets)
  ∧ task_status (delete_task st task_id) task_id = .error .taskNotFound
  ∧ task_result (delete_task st task_id) task_id = .ok (none, []) := by
  refine ⟨?_, ?_, ?_⟩
  · intro ws hws
    show ws ∈ st.closedSockets ++ _
    apply List.mem_append_right
    cases hsub : lookupKey st.task_subscribers task_id with
    | none =>
      rw [hsub] at hws
      simp at hws
    | some l =>
      rw [hsub] at hws
      exact hws
  · simp [task_status, get_raw_task, delete_task_tasks, lookupKey_eraseKey]
  · simp [task_result, get_raw_task, delete_task_tasks, lookupKey_eraseKey]

/-- Witness for the amended C4 theorem: a concrete state with one
subscriber. -/
theorem delete_task_closes_subscribers_and_hides_task_witness :
    7 ∈ (delete_task sampleSubscribedState "t1").closedSockets
  ∧ task_status (delete_task sampleSubscribedState "t1") "t1" = .error .taskNotFound
  ∧ task_result (delete_task sampleSubscribedState "t1") "t1" = .ok (none, []) :=
  ⟨(delete_task_closes_subscribers_and_hides_task sampleSubscribedState "t1").1 7
      (by decide),
   (delete_task_closes_subscribers_and_hides_task sampleSubscribedState "t1").2.1,
   (delete_task_closes_subscribers_and_hides_task sampleSubscribedState "t1").2.2⟩

/-- Claim C5.  When a local worker processes a task to success, at the
end of the success branch the task record holds the assembled response,
its `scratch_dir` is set exactly when the response is a file response,
its `sources` are emptied, its `options` are cleared, and its status is
SUCCESS. -/
theorem worker_success_branch_postconditions
    (task : Task) (opts : DatamodelConvert.ConvertDocumentsOptions)
    (conv_results : List ConvResultData) (work_dir : String) (elapsed : ℚ) (now : Int)
    (resp : PreparedResponse) (created : Bool)
    (hopts : task.options = some opts)
    (hscratch : task.scratch_dir = none)
    (hok : process_results opts conv_results work_dir elapsed = .ok (resp, created)) :
    (AsyncLocalWorker.handle_task task conv_results work_dir elapsed now).result = some resp
  ∧ (AsyncLocalWorker.handle_task task conv_results work_dir elapsed now).scratch_dir.isSome
      = resp.isFile
  ∧ (AsyncLocalWorker.handle_task task conv_results work_dir elapsed now).sources = []
  ∧ (AsyncLocalWorker.handle_task task conv_results work_dir elapsed now).options = none
  ∧ (AsyncLocalWorker.handle_task task conv_results work_dir elapsed now).task_status
      = TaskStatus.success := by
  have hcf : created = resp.isFile :=
    process_results_isFile opts conv_results work_dir elapsed resp created hok
  simp only [AsyncLocalWorker.handle_task, hopts, hok]
  refine ⟨?_, ?_, ?_, ?_, ?_⟩
  · rw [set_status_result]
  · rw [set_status_scratch_dir]
    cases created with
    | true => simp [← hcf]
    | false => simp [← hcf, set_status_scratch_dir, hscratch]
  · rw [set_status_sources]
  · rw [set_status_options]
  · rw [set_status_task_status]

/-- Witness for the C5 theorem: one successful document under default
options yields the inline response. -/
theorem worker_success_branch_postconditions_witness :
    sampleTask.options = some {}
  ∧ sampleTask.scratch_dir = none
  ∧ process_results {} [sampleSuccessResult] "w" 0 = .ok (sampleInlineResponse, false)
  ∧ ((AsyncLocalWorker.handle_task sampleTask [sampleSuccessResult] "w" 0 5).result
        = some sampleInlineResponse
      ∧ (AsyncLocalWorker.handle_task sampleTask [sampleSuccessResult] "w" 0 5).scratch_dir.isSome
        = sampleInlineResponse.isFile
      ∧ (AsyncLocalWorker.handle_task sampleTask [sampleSuccessResult] "w" 0 5).sources = []
      ∧ (AsyncLocalWorker.handle_task sampleTask [sampleSuccessResult] "w" 0 5).options = none
      ∧ (AsyncLocalWorker.handle_task sampleTask [sampleSuccessResult] "w" 0 5).task_status
        = TaskStatus.success) :=
  ⟨rfl, rfl, by decide,
   worker_success_branch_postconditions sampleTask {} [sampleSuccessResult] "w" 0 5
     sampleInlineResponse false rfl rfl (by decide)⟩

/-- Claim C6, failing-input evaluation.  A fresh PENDING task of the KFP
orchestrator receives a `set_num_docs` progress callback: the intake
writes `task_status` directly, so the task transitions into STARTED while
`started_at` remains unassigned (and `last_update_at` is not touched
either), contradicting the claim that `started_at` is assigned at the
first transition into STARTED. -/
theorem progress_intake_starts_task_without_started_at :
    receive_task_progress (fun _ => some "r1") kfpSampleState
        { task_id := "docling-job-x", progress := .set_num_docs 3 }
      = .ok ({ kfpSampleState with tasks := [("r1", kfpStartedTask)] }, "r1")
  ∧ kfpFreshTask.task_status = TaskStatus.pending
  ∧ kfpFreshTask.started_at = none
  ∧ kfpStartedTask.task_status = TaskStatus.started
  ∧ kfpStartedTask.started_at = none
  ∧ kfpStartedTask.last_update_at = kfpFreshTask.last_update_at := by
  refine ⟨by decide, rfl, rfl, rfl, rfl, rfl⟩

/-- Claim C7.  An `update_processed` progress callback on a resolved,
registered task fails with `ProgressInvalid` (translated to HTTP 400)
when the task meta has not been initialised by `set_num_docs`; otherwise
the three counters are incremented by exactly the payload deltas and the
task status is STARTED afterwards. -/
theorem update_processed_requires_meta_and_adds_deltas
    (resolve : String → Option String) (st : OrchState)
    (name tid : String) (task : Task) (np ns nf : Int)
    (ds : List String) (df : List (String × String))
    (hres : resolve name = some tid)
    (hlook : lookupKey st.tasks tid = some task)
    (hsubs : (lookupKey st.task_subscribers tid).isSome = true) :
    (task.processing_meta = none →
        receive_task_progress resolve st
            { task_id := name, progress := .update_processed np ns nf ds df }
          = .error (.progressInvalid
              "UpdateProcessed was called before setting the expected number of documents.")
        ∧ callback_task_progress (receive_task_progress resolve st
            { task_id := name, progress := .update_processed np ns nf ds df }) = 400)
  ∧ (∀ m, task.processing_meta = some m →
        ∃ st2, receive_task_progress resolve st
            { task_id := name, progress := .update_processed np ns nf ds df }
          = .ok (st2, tid)
        ∧ lookupKey st2.tasks tid
            = some { task with
                processing_meta := some { m with
                  num_processed := m.num_processed + np,
                  num_succeeded := m.num_succeeded + ns,
                  num_failed := m.num_failed + nf },
                task_status := .started }) := by
  constructor
  · intro hm
    constructor
    · simp only [receive_task_progress, hres, hlook, apply_task_progress, hm]
    · simp only [receive_task_progress, hres, hlook, apply_task_progress, hm,
        callback_task_progress]
  · intro m hm
    obtain ⟨ws, hws⟩ := Option.isSome_iff_exists.mp hsubs
    have htsk2 : lookupKey (updateKey st.tasks tid (fun _ =>
        { task with
            processing_meta := some { m with
              num_processed := m.num_processed + np,
              num_succeeded := m.num_succeeded + ns,
              num_failed := m.num_failed + nf },
            task_status := .started })) tid
        = some { task with
            processing_meta := some { m with
              num_processed := m.num_processed + np,
              num_succeeded := m.num_succeeded + ns,
              num_failed := m.num_failed + nf },
            task_status := .started } := by
      rw [lookupKey_updateKey_self, hlook]
      rfl
    have htsk2b : lookupKey ({ st with tasks := updateKey st.tasks tid (fun _ =>
        { task with
            processing_meta := some { m with
              num_processed := m.num_processed + np,
              num_succeeded := m.num_succeeded + ns,
              num_failed := m.num_failed + nf },
            task_status := .started }) } : OrchState).tasks tid
        = some { task with
            processing_meta := some { m with
              num_processed := m.num_processed + np,
              num_succeeded := m.num_succeeded + ns,
              num_failed := m.num_failed + nf },
            task_status := .started } := htsk2
    have hsubs2 : lookupKey ({ st with tasks := updateKey st.tasks tid (fun _ =>
        { task with
            processing_meta := some { m with
              num_processed := m.num_processed + np,
              num_succeeded := m.num_succeeded + ns,
              num_failed := m.num_failed + nf },
            task_status := .started }) } : OrchState).task_subscribers tid
        = some ws := hws
    refine ⟨{ st with tasks := updateKey st.tasks tid (fun _ =>
        { task with
            processing_meta := some { m with
              num_processed := m.num_processed + np,
              num_succeeded := m.num_succeeded + ns,
              num_failed := m.num_failed + nf },
            task_status := .started }) }, ?_, htsk2b⟩
    simp only [receive_task_progress, hres, hlook, apply_task_progress, hm,
      notify_task_subscribers, htsk2b, hsubs2, Task.is_completed]
    rfl

/-- Witness for the C7 theorem at a registered KFP task with initialised
meta. -/
theorem update_processed_requires_meta_and_adds_deltas_witness :
    (kfpMetaTask.processing_meta = none →
        receive_task_progress (fun _ => some "r1") kfpMetaState
            { task_id := "docling-job-x", progress := .update_processed 1 1 0 [] [] }
          = .error (.progressInvalid
              "UpdateProcessed was called before setting the expected number of documents.")
        ∧ callback_task_progress (receive_task_progress (fun _ => some "r1") kfpMetaState
            { task_id := "docling-job-x",
              progress := .update_processed 1 1 0 [] [] }) = 400)
  ∧ (∀ m, kfpMetaTask.processing_meta = some m →
        ∃ st2, receive_task_progress (fun _ => some "r1") kfpMetaState
            { task_id := "docling-job-x", progress := .update_processed 1 1 0 [] [] }
          = .ok (st2, "r1")
        ∧ lookupKey st2.tasks "r1"
            = some { kfpMetaTask with
                processing_meta := some { m with
                  num_processed := m.num_processed + 1,
                  num_succeeded := m.num_succeeded + 1,
                  num_failed := m.num_failed + 0 },
                task_status := .started }) :=
  update_processed_requires_meta_and_adds_deltas (fun _ => some "r1") kfpMetaState
    "docling-job-x" "r1" kfpMetaTask 1 1 0 [] [] rfl (by decide) (by decide)

/-- Claim C8, counterexample.  A single SKIPPED conversion result with
`return_as_file = false` makes the response assembler raise
`HTTPException(400)` with the result errors instead of producing an
inline JSON response. -/
theorem process_results_skipped_single_raises_400 :
    process_results {} [sampleSkippedResult] "w" 0
      = .error { status_code := 400, detail := .errs ["The document was skipped."] }
  ∧ ({} : DatamodelConvert.ConvertDocumentsOptions).return_as_file = false := by
  constructor
  · decide
  · rfl

/-- Claim C8 (amended).  For a non-empty batch of successful conversion
results with at least one requested output format: exactly one result
with `return_as_file` false yields the inline JSON response carrying
document, status, (default-empty) errors, processing time and timings;
every other case (one result forced as file, or two and more results)
yields the file response to `converted_docs.zip` in the scratch directory
with media type `application/zip`. -/
theorem process_results_response_shape
    (opts : DatamodelConvert.ConvertDocumentsOptions)
    (conv_results : List ConvResultData) (work_dir : String) (elapsed : ℚ)
    (hne : conv_results ≠ [])
    (hall : ∀ r ∈ conv_results, r.status = ConversionStatus.success)
    (hfmt : opts.to_formats ≠ []) :
    (∀ r, conv_results = [r] → opts.return_as_file = false →
        process_results opts conv_results work_dir elapsed
          = .ok (.inline
              { document :=
                  { filename := r.filename
                  , json_content := if decide (OutputFormat.json ∈ opts.to_formats)
                      then some r.json_render else none
                  , html_content := if decide (OutputFormat.html ∈ opts.to_formats)
                      then some r.html_render else none
                  , text_content := if decide (OutputFormat.text ∈ opts.to_formats)
                      then some r.txt_render else none
                  , md_content := if decide (OutputFormat.md ∈ opts.to_formats)
                      then some r.md_render else none
                  , doctags_content := if decide (OutputFormat.doctags ∈ opts.to_formats)
                      then some r.doctags_render else none }
              , status := r.status, processing_time := elapsed,
                timings := r.timings }, false))
  ∧ ((2 ≤ conv_results.length ∨ opts.return_as_file = true) →
        process_results opts conv_results work_dir elapsed
          = .ok (.file (work_dir ++ "/converted_docs.zip") "converted_docs.zip"
                 "application/zip", true)) := by
  constructor
  · rintro r rfl hret
    have hr : r.status = ConversionStatus.success := hall r (List.mem_cons_self _ _)
    have hexp : _export_document_as_content r
        (decide (OutputFormat.json ∈ opts.to_formats))
        (decide (OutputFormat.html ∈ opts.to_formats))
        (decide (OutputFormat.md ∈ opts.to_formats))
        (decide (OutputFormat.text ∈ opts.to_formats))
        (decide (OutputFormat.doctags ∈ opts.to_formats))
        = .ok { filename := r.filename
              , json_content := if decide (OutputFormat.json ∈ opts.to_formats)
                  then some r.json_render else none
              , html_content := if decide (OutputFormat.html ∈ opts.to_formats)
                  then some r.html_render else none
              , text_content := if decide (OutputFormat.text ∈ opts.to_formats)
                  then some r.txt_render else none
              , md_content := if decide (OutputFormat.md ∈ opts.to_formats)
                  then some r.md_render else none
              , doctags_content := if decide (OutputFormat.doctags ∈ opts.to_formats)
                  then some r.doctags_render else none } := by
      simp [_export_document_as_content, hr]
    rw [process_results_single, if_pos hret, hexp]
  · intro hcase
    cases conv_results with
    | nil => exact absurd rfl hne
    | cons r rest =>
      cases rest with
      | nil =>
        have hret : opts.return_as_file = true := by
          rcases hcase with h2 | hb
          · simp at h2
          · exact hb
        rw [process_results_single, if_neg (by simp [hret])]
        exact zip_response_of_files_ne_nil
          (export_files_ne_nil [r] opts.to_formats (by simp) hall hfmt)
      | cons r2 rest2 =>
        rw [process_results_multi]
        exact zip_response_of_files_ne_nil
          (export_files_ne_nil (r :: r2 :: rest2) opts.to_formats (by simp) hall hfmt)

/-- Witness for the amended C8 theorem: one successful document under
default options. -/
theorem process_results_response_shape_witness :
    (∀ r, [sampleSuccessResult] = [r] →
        ({} : DatamodelConvert.ConvertDocumentsOptions).return_as_file = false →
        process_results {} [sampleSuccessResult] "w" 0
          = .ok (.inline
              { document :=
                  { filename := r.filename
                  , json_content := if decide (OutputFormat.json ∈
                        ({} : DatamodelConvert.ConvertDocumentsOptions).to_formats)
                      then some r.json_render else none
                  , html_content := if decide (OutputFormat.html ∈
                        ({} : DatamodelConvert.ConvertDocumentsOptions).to_formats)
                      then some r.html_render else none
                  , text_content := if decide (OutputFormat.text ∈
                        ({} : DatamodelConvert.ConvertDocumentsOptions).to_formats)
                      then some r.txt_render else none
                  , md_content := if decide (OutputFormat.md ∈
                        ({} : DatamodelConvert.ConvertDocumentsOptions).to_formats)
                      then some r.md_render else none
                  , doctags_content := if decide (OutputFormat.doctags ∈
                        ({} : DatamodelConvert.ConvertDocumentsOptions).to_formats)
                      then some r.doctags_render else none }
              , status := r.status, processing_time := 0,
                timings := r.timings }, false))
  ∧ ((2 ≤ ([sampleSuccessResult] : List ConvResultData).length ∨
        ({} : DatamodelConvert.ConvertDocumentsOptions).return_as_file = true) →
        process_results {} [sampleSuccessResult] "w" 0
          = .ok (.file ("w" ++ "/converted_docs.zip") "converted_docs.zip"
                 "application/zip", true)) :=
  process_results_response_shape {} [sampleSuccessResult] "w" 0
    (by decide) (by decide) (by decide)

/-- Claim C9.  `clear_results(older_than)` deletes exactly the tasks
whose `finished_at` lies strictly before `now - older_than`: tasks
without `finished_at` are never deleted; with `older_than = 0` (given
that every recorded `finished_at` lies in the past and that
`finished_at` presence coincides with completion) the deleted tasks are
exactly the completed ones; and an immediately repeated call is a
no-op. -/
theorem clear_results_deletes_exactly_finished_before_cutoff
    (st : OrchState) (now older_than now2 : Int)
    (hnd : (st.tasks.map Prod.fst).Nodup)
    (hfin : ∀ kv ∈ st.tasks, kv.2.finished_at.isSome = kv.2.is_completed)
    (hpast : ∀ kv ∈ st.tasks, finishedBeforeOrUnfinished kv.2 now = true) :
    (∀ tid t, lookupKey st.tasks tid = some t →
        lookupKey (clear_results st now older_than).tasks tid
          = if finishedBefore t (now - older_than) then none else some t)
  ∧ (∀ tid t, lookupKey st.tasks tid = some t → t.finished_at = none →
        lookupKey (clear_results st now older_than).tasks tid = some t)
  ∧ (∀ tid t, lookupKey st.tasks tid = some t →
        (lookupKey (clear_results st now 0).tasks tid = none ↔ t.is_completed = true))
  ∧ clear_results (clear_results st now 0) now2 0 = clear_results st now 0 := by
  refine ⟨?_, ?_, ?_, ?_⟩
  · intro tid t hlook
    exact clear_results_lookup st now older_than hnd tid t hlook
  · intro tid t hlook hnone
    rw [clear_results_lookup st now older_than hnd tid t hlook]
    simp [finishedBefore, hnone]
  · intro tid t hlook
    rw [clear_results_lookup st now 0 hnd tid t hlook, sub_zero]
    have hmem := lookupKey_mem hlook
    have hfb : finishedBefore t now = t.finished_at.isSome := by
      cases hf : t.finished_at with
      | none => simp [finishedBefore, hf]
      | some f =>
        have hflt : f < now := by
          have := hpast (tid, t) hmem
          simpa [finishedBeforeOrUnfinished, hf] using this
        simp [finishedBefore, hf]
        omega
    have hic : t.finished_at.isSome = t.is_completed := hfin (tid, t) hmem
    rw [hfb, hic]
    by_cases hcomp : t.is_completed = true
    · simp [hcomp]
    · simp [hcomp]
  · exact clear_results_twice st now now2 hpast

/-- Witness for the C9 theorem: one completed and one pending task at
clock 10. -/
theorem clear_results_deletes_exactly_finished_before_cutoff_witness :
    (∀ tid t, lookupKey c9State.tasks tid = some t →
        lookupKey (clear_results c9State 10 0).tasks tid
          = if finishedBefore t (10 - 0) then none else some t)
  ∧ (∀ tid t, lookupKey c9State.tasks tid = some t → t.finished_at = none →
        lookupKey (clear_results c9State 10 0).tasks tid = some t)
  ∧ (∀ tid t, lookupKey c9State.tasks tid = some t →
        (lookupKey (clear_results c9State 10 0).tasks tid = none ↔ t.is_completed = true))
  ∧ clear_results (clear_results c9State 10 0) 20 0 = clear_results c9State 10 0 :=
  clear_results_deletes_exactly_finished_before_cutoff c9State 10 0 20
    (by decide) (by decide) (by decide)

/-- Claim C10.  In every reachable orchestrator state, the task registry
and the subscriber registry track exactly the same set of task ids:
every operation that creates a task registers an empty subscriber set,
and every operation that removes a task also removes its subscriber
entry. -/
theorem task_registry_and_subscriber_keys_agree (st : OrchState)
    (h : Reachable st) : keysAligned st := by
  induction h with
  | init =>
    intro tid
    rfl
  | step s _hr ih =>
    cases s with
    | init task => exact keysAligned_init ih task
    | enq task => exact keysAligned_enqueue ih task
    | del task_id => exact keysAligned_delete ih task_id
    | clear now older_than => exact keysAligned_clear ih now older_than
    | sub task_id ws => exact keysAligned_subscribe ih task_id ws
    | unsub task_id ws => exact keysAligned_unsubscribe ih task_id ws
    | setTask task_id t => exact keysAligned_setTask ih task_id t
    | dequeue task_id => exact ih

/-- Witness for the C10 theorem: the state reached by an enqueue followed
by a deletion. -/
theorem task_registry_and_subscriber_keys_agree_witness :
    (lookupKey (applyStep (applyStep {} (OrchStep.enq sampleTask))
        (OrchStep.del "t1")).tasks "t1").isSome
      = (lookupKey (applyStep (applyStep {} (OrchStep.enq sampleTask))
          (OrchStep.del "t1")).task_subscribers "t1").isSome :=
  task_registry_and_subscriber_keys_agree _
    (Reachable.step _ (Reachable.step _ Reachable.init)) "t1"

end DoclingServe
